import Mathlib

/-
Verification development for the dbacademy REST client library.

This file gives a shallow embedding, in Lean 4, of the core logic of
`src/dbacademy/rest/common.py` (class `ApiClient` and exception
`DatabricksApiException`) and of `src/dbacademy/clients/docebo/__init__.py`
(`DoceboRestClient.authenticate` and its constructor), together with theorems
settling the frozen claims about that code.

Modelling conventions:
- Python JSON values (the results of `json.loads` / `response.json()`) are the
  inductive type `Json`; a Python `dict` payload is an association list
  `List (String × Json)` in insertion order, matching CPython dict semantics.
- A `requests.Response` is the structure `Response`; the outcome of parsing its
  body as JSON is carried as the field `jsonOf` (`none` = a `ValueError` from
  `json.loads` / `response.json()`).
- Raising an exception is modelled with `Except`: `ApiError` enumerates the
  exception classes the embedded code can raise.
- Python string helpers (`startswith`, `endswith`, `lstrip`, `rstrip`,
  slicing) are re-implemented over `List Char`, which coincides with Python's
  code-point semantics for these operations.
- The network is an oracle `respond : HttpRequest → Response` passed to `api`;
  DNS resolution (`_verify_hostname`) is the boolean parameter `dnsResolves`.
  Throttling (`_throttle_calls`) only sleeps and is therefore elided.
-/

set_option autoImplicit false

namespace DbAcademy

/-- A Python value as produced by `json.loads`: JSON null, booleans, (integer)
numbers, strings, arrays and objects.  Objects keep their key/value pairs in
insertion order, like CPython dicts. -/
inductive Json where
  | null
  | bool (b : Bool)
  | num (n : Int)
  | str (s : String)
  | arr (elements : List Json)
  | obj (entries : List (String × Json))

/-- A Python `dict` with string keys, as used for request payloads. -/
abbrev Dict := List (String × Json)

/-! ## Python string primitives, over code points -/

/-- Python `s.startswith(pat)`. -/
def pyStartsWith (s pat : String) : Bool :=
  pat.data.isPrefixOf s.data

/-- Python `s.endswith(pat)`. -/
def pyEndsWith (s pat : String) : Bool :=
  pat.data.isSuffixOf s.data

/-- Occurrence of `pat` as a contiguous sublist of the second list. -/
def containsSublist : List Char → List Char → Bool
  | pat, [] => pat.isEmpty
  | pat, c :: rest => pat.isPrefixOf (c :: rest) || containsSublist pat rest

/-- Python `pat in s` (substring containment). -/
def pyContains (s pat : String) : Bool :=
  containsSublist pat.data s.data

/-- Python `s.lstrip(c)` for a one-character strip set. -/
def pyLStrip (s : String) (c : Char) : String :=
  String.mk (s.data.dropWhile (fun d => d == c))

/-- Python `s.rstrip(c)` for a one-character strip set. -/
def pyRStrip (s : String) (c : Char) : String :=
  String.mk ((s.data.reverse.dropWhile (fun d => d == c)).reverse)

/-- Python `len(s)` (code points). -/
def pyLen (s : String) : Nat :=
  s.data.length

/-- Python `s[n:]` (drop the first `n` code points). -/
def pyDrop (s : String) (n : Nat) : String :=
  String.mk (s.data.drop n)

/-! ## Python dict primitives -/

/-- Python `d[k]` lookup as an `Option` (first — and in a real dict only —
occurrence of the key). -/
def pyLookup : Dict → String → Option Json
  | [], _ => none
  | (k', v) :: rest, k => if k' == k then some v else pyLookup rest k

/-- Python `d.get(k, dflt)`: the stored value when the key is present (even a
stored `None`), otherwise the default. -/
def pyDictGet (d : Dict) (k : String) (dflt : Json) : Json :=
  match pyLookup d k with
  | some v => v
  | none => dflt

/-- Python `d[k] = v`: replace the value at an existing key in place, else
append the new pair at the end (CPython insertion-order semantics). -/
def pyDictSet : Dict → String → Json → Dict
  | [], k, v => [(k, v)]
  | (k', v') :: rest, k, v =>
    if k' == k then (k', v) :: rest else (k', v') :: pyDictSet rest k v

/-- Python `d.update(kw)`: set each pair of `kw`, in order, into `d`. -/
def pyDictUpdate : Dict → Dict → Dict
  | d, [] => d
  | d, (k, v) :: rest => pyDictUpdate (pyDictSet d k v) rest

/-! ## UTF-8 and standard base64 (`(user + ":" + password).encode()`,
`base64.standard_b64encode`) -/

/-- UTF-8 encoding of a single code point, as byte values. -/
def utf8EncodeChar (n : Nat) : List Nat :=
  if n < 128 then [n]
  else if n < 2048 then [192 + n / 64, 128 + n % 64]
  else if n < 65536 then [224 + n / 4096, 128 + n / 64 % 64, 128 + n % 64]
  else [240 + n / 262144, 128 + n / 4096 % 64, 128 + n / 64 % 64, 128 + n % 64]

/-- Python `s.encode()`: UTF-8 bytes of a string. -/
def strToUtf8 (s : String) : List Nat :=
  (s.data.map (fun c => utf8EncodeChar c.toNat)).flatten

/-- The base64 alphabet. -/
def base64Alphabet : List Char :=
  "ABCDEFGHIJKLMNOPQRSTUVWXYZabcdefghijklmnopqrstuvwxyz0123456789+/".data

/-- One base64 output quantum from three input bytes. -/
def b64Group (a b c : Nat) : List Char :=
  let n := a * 65536 + b * 256 + c
  [base64Alphabet.getD (n / 262144 % 64) 'A',
   base64Alphabet.getD (n / 4096 % 64) 'A',
   base64Alphabet.getD (n / 64 % 64) 'A',
   base64Alphabet.getD (n % 64) 'A']

/-- Standard base64 of a byte sequence, with `=` padding
(`base64.standard_b64encode`). -/
def b64Encode : List Nat → List Char
  | a :: b :: c :: rest => b64Group a b c ++ b64Encode rest
  | [a, b] => (b64Group a b 0).take 3 ++ ['=']
  | [a] => (b64Group a 0 0).take 2 ++ ['=', '=']
  | [] => []

/-- Model of `base64.standard_b64encode(s.encode()).decode()`. -/
def b64EncodeStr (s : String) : String :=
  String.mk (b64Encode (strToUtf8 s))

/-! ## A JSON serializer standing for `json.dumps` (default separators) -/

/-- Escaping of one character inside a JSON string literal (the cases relevant
to `json.dumps`' mandatory escapes; other printable characters pass through). -/
def jsonEscapeChar (c : Char) : List Char :=
  if c == '"' then ['\\', '"']
  else if c == '\\' then ['\\', '\\']
  else if c == '\n' then ['\\', 'n']
  else if c == '\t' then ['\\', 't']
  else if c == '\r' then ['\\', 'r']
  else [c]

/-- Escape the body of a JSON string literal. -/
def jsonEscape (s : String) : String :=
  String.mk (s.data.map jsonEscapeChar).flatten

mutual

/-- Serializer standing for `json.dumps(v)` with the default separators `", "` and `": "`. -/
def jsonDumps : Json → String
  | .null => "null"
  | .bool true => "true"
  | .bool false => "false"
  | .num n => toString n
  | .str s => "\"" ++ jsonEscape s ++ "\""
  | .arr xs => "[" ++ jsonDumpsElems xs ++ "]"
  | .obj kvs => "\x7b" ++ jsonDumpsEntries kvs ++ "\x7d"

/-- Comma-separated serialization of array elements. -/
def jsonDumpsElems : List Json → String
  | [] => ""
  | [x] => jsonDumps x
  | x :: y :: rest => jsonDumps x ++ ", " ++ jsonDumpsElems (y :: rest)

/-- Comma-separated serialization of object entries. -/
def jsonDumpsEntries : List (String × Json) → String
  | [] => ""
  | [(k, v)] => "\"" ++ jsonEscape k ++ "\": " ++ jsonDumps v
  | (k, v) :: y :: rest =>
    "\"" ++ jsonEscape k ++ "\": " ++ jsonDumps v ++ ", " ++ jsonDumpsEntries (y :: rest)

end

/-- Python `str(v)` on a JSON value, as used by f-string interpolation
(`f"Bearer {access_token}"`).  Only the scalar cases are ever reached by the
embedded code. -/
def pyStr : Json → String
  | .null => "None"
  | .bool true => "True"
  | .bool false => "False"
  | .num n => toString n
  | .str s => s
  | .arr xs => "[" ++ jsonDumpsElems xs ++ "]"
  | .obj kvs => "\x7b" ++ jsonDumpsEntries kvs ++ "\x7d"

/-! ## Responses, exceptions and `_raise_for_status`
(`src/dbacademy/rest/common.py`) -/

/-- The observable parts of a `requests.Response`, together with the method and
path of the request that produced it (`response.request.method`,
`response.request.path_url`).  `jsonOf` is the outcome of parsing `text` as
JSON: `some v` when `json.loads(text)` / `response.json()` returns `v`, `none`
when it raises `ValueError`. -/
structure Response where
  status_code : Nat
  text : String
  jsonOf : Option Json
  content : List Nat
  reason : String
  url : String
  request_method : String
  request_path_url : String

/-- The structured 4xx exception `DatabricksApiException`, as built from an
`HTTPError` (`message=None`, `http_code=None`, `http_exception=e`). -/
structure DatabricksApiException where
  body : Json
  message : Json
  error_code : Json
  method : String
  endpoint : String
  http_code : Nat

/-- The exception classes the embedded code can raise. -/
inductive ApiError where
  | valueError (msg : String)
  | connectionError (msg : String)
  | httpError (msg : String) (response : Response)
  | databricksApiError (e : DatabricksApiException)
  | attributeError (msg : String)
  | assertionError (msg : String)

/-- The `expected` argument of `_raise_for_status`, which the caller may pass
as `None`, a `str`, an `int`, or a container of ints. -/
inductive ExpectedArg where
  | none
  | str (s : String)
  | int (n : Nat)
  | container (codes : List Nat)

/-- Lines 230-238 of `common.py`: normalize `expected` to a container of
status codes.  `int(expected)` on a non-numeric string raises `ValueError`;
the code's final `isinstance(expected, Container)` guard is unreachable here
because the embedding's `ExpectedArg` only admits the four legal shapes. -/
def normalizeExpected : ExpectedArg → Except ApiError (List Nat)
  | .none => .ok []
  | .str s =>
    match s.toNat? with
    | some n => .ok [n]
    | Option.none => .error (.valueError ("invalid literal for int: " ++ s))
  | .int n => .ok [n]
  | .container codes => .ok codes

/-- Lines 250-259 of `common.py`: the error-type label for a status code
(2xx never reaches this point). -/
def errorTypeLabel (status : Nat) : String :=
  if 100 ≤ status ∧ status < 200 then "Informational"
  else if 300 ≤ status ∧ status < 400 then "Redirection"
  else if 400 ≤ status ∧ status < 500 then "Client Error"
  else if 500 ≤ status ∧ status < 600 then "Server Error"
  else "Unknown Error"

/-- Lines 261-264 of `common.py`: the body preview, `pformat`-ed JSON when the
body parses, the raw text otherwise (`jsonDumps` stands in for
`pprint.pformat`, whose exact layout is irrelevant to the claims). -/
def bodyPreview (response : Response) : String :=
  match response.jsonOf with
  | some j => jsonDumps j
  | none => response.text

/-- Lines 266-267 of `common.py`: the generic HTTP error message. -/
def httpErrorMsg (response : Response) : String :=
  toString response.status_code ++ " " ++ errorTypeLabel response.status_code ++ ": "
    ++ response.reason ++ " for url: " ++ response.url
    ++ "\n Response from server: \n " ++ bodyPreview response

/-- Model of `DatabricksApiException.__init__` (lines 337-367 of `common.py`) on the
`http_exception` path with `message=None`.  `json.loads` succeeding with a
non-dict value makes the subsequent `self.body.get(...)` raise
`AttributeError`, which the surrounding `except ValueError` does not catch. -/
def mkDatabricksApiException (response : Response) : Except ApiError DatabricksApiException :=
  match response.jsonOf with
  | some (Json.obj kvs) =>
    .ok { body := Json.obj kvs,
          message := pyDictGet kvs "message" (pyDictGet kvs "error" (Json.str response.text)),
          error_code := pyDictGet kvs "error_code" (Json.num (-1)),
          method := response.request_method,
          endpoint := response.request_path_url,
          http_code := response.status_code }
  | some _ =>
    .error (.attributeError "object has no attribute get")
  | none =>
    .ok { body := Json.str response.text,
          message := Json.str response.text,
          error_code := Json.num (-1),
          method := response.request_method,
          endpoint := response.request_path_url,
          http_code := response.status_code }

/-- Model of `ApiClient._raise_for_status` (lines 222-271 of `common.py`): accept 2xx
and explicitly expected statuses; wrap other 4xx statuses in
`DatabricksApiException`; raise a generic `HTTPError` for the rest. -/
def raise_for_status (response : Response) (expected : ExpectedArg) : Except ApiError Unit :=
  if 200 ≤ response.status_code ∧ response.status_code < 300 then .ok ()
  else
    match normalizeExpected expected with
    | .error e => .error e
    | .ok codes =>
      if codes.contains response.status_code then .ok ()
      else if 400 ≤ response.status_code ∧ response.status_code < 500 then
        match mkDatabricksApiException response with
        | .ok d => .error (.databricksApiError d)
        | .error e => .error e
      else .error (.httpError (httpErrorMsg response) response)

/-! ## The `ApiClient` constructor (lines 49-118 of `common.py`) -/

/-- The state an `ApiClient` holds after construction (the fields the claims
observe; the retry adapter and the mutable throttling timestamp are elided).
`authHeader` and `contentType` are `session.headers["Authorization"]` and
`session.headers["Content-Type"]`. -/
structure ApiClientState where
  url : String
  user : Option String
  throttle_seconds : Int
  read_timeout : Nat
  connect_timeout : Nat
  verbose : Bool
  authHeader : String
  contentType : String

/-- Python truthiness of an optional string argument (`if authorization_header:`):
true exactly for a present, non-empty string. -/
def optTruthy : Option String → Bool
  | some s => !(s == "")
  | none => false

/-- Lines 80-81 of `common.py`: when a parent client is supplied and the url
has no scheme, resolve it against the parent's url. -/
def mergeClientUrl (url : String) (client : Option ApiClientState) : String :=
  match client with
  | some c =>
    if pyContains url "://" then url
    else pyLStrip c.url '/' ++ "/" ++ pyRStrip url '/'
  | none => url

/-- Lines 83-94 of `common.py`: select the authorization header from the
supplied credentials, in the code's precedence order. -/
def selectAuthHeader (token : Option String) (user : Option String)
    (password : Option String) (authorization_header : Option String)
    (client : Option ApiClientState) : Except ApiError String :=
  if optTruthy authorization_header then .ok (authorization_header.getD "")
  else
    match token with
    | some t => .ok ("Bearer " ++ t)
    | none =>
      match user, password with
      | some u, some p => .ok ("Basic " ++ b64EncodeStr (u ++ ":" ++ p))
      | _, _ =>
        match client with
        | some c => .ok c.authHeader
        | none => .error (.valueError "Must specify one of token, password, or authorization_header")

/-- Lines 96-97 of `common.py`: append a trailing `/` when the url lacks one. -/
def normalizeUrl (u : String) : String :=
  if pyEndsWith u "/" then u else u ++ "/"

/-- Model of `ApiClient.__init__`: URL merging with a parent client, authorization
header selection, trailing-slash normalization.  `print_warning` on throttling
and the session/retry setup have no observable effect on the modelled state. -/
def apiClientInit (url : String) (token : Option String) (user : Option String)
    (password : Option String) (authorization_header : Option String)
    (client : Option ApiClientState) (throttle_seconds : Int) (verbose : Bool) :
    Except ApiError ApiClientState :=
  match selectAuthHeader token user password authorization_header client with
  | .error e => .error e
  | .ok hdr =>
    .ok { url := normalizeUrl (mergeClientUrl url client), user := user,
          throttle_seconds := throttle_seconds,
          read_timeout := 300, connect_timeout := 5, verbose := verbose,
          authHeader := hdr, contentType := "text/json" }

/-! ## `ApiClient.api` (lines 132-198 of `common.py`) -/

/-- Lines 159-164 of `api`: merge the keyword-argument payload into `_data`.
Returns the payload used for the request together with the contents of the
caller's `_data` dict after the prologue runs.  `_data.copy()` yields a fresh
dict, so the in-place `update` never alters the caller's dict; `if data:` is
false for an empty kwargs dict, in which case `_data` itself is used. -/
def prepareData (_data : Option Dict) (data : Dict) : Dict × Option Dict :=
  let d := match _data with | some d => d | none => []
  if data.isEmpty then (d, _data)
  else (pyDictUpdate d data, _data)

/-- Lines 167-171 of `api`: resolve the final request URL from the base URL
and the endpoint path. -/
def resolveEndpoint (baseUrl : String) (_endpoint_path : String) : Except ApiError String :=
  if pyStartsWith _endpoint_path baseUrl then
    .ok (baseUrl ++ pyLStrip (pyDrop _endpoint_path (pyLen baseUrl)) '/')
  else if pyStartsWith _endpoint_path "http" then
    .error (.valueError ("endpoint_path must be relative url, not " ++ reprStr _endpoint_path ++ "."))
  else
    .ok (baseUrl ++ pyLStrip _endpoint_path '/')

/-- How the payload travels: as query parameters (GET/HEAD/OPTIONS) or as a
JSON request body (all other methods). -/
inductive RequestBody where
  | params (ps : Dict)
  | jsonBody (s : String)

/-- The HTTP request handed to `self.session.request`. -/
structure HttpRequest where
  method : String
  url : String
  body : RequestBody
  connect_timeout : Nat
  read_timeout : Nat

/-- Line 174 of `api`: `str(v).lower() if isinstance(v, bool) else v` on a
query-parameter value (`str(True).lower() == "true"`). -/
def paramValue : Json → Json
  | .bool b => .str (if b then "true" else "false")
  | v => v

/-- Lines 167-178 of `api` up to the `session.request` call: resolve the URL
and build the request from the payload. -/
def apiBuildRequest (s : ApiClientState) (_http_method : String) (_endpoint_path : String)
    (payload : Dict) : Except ApiError HttpRequest :=
  match resolveEndpoint s.url _endpoint_path with
  | .error e => .error e
  | .ok url =>
    if ["GET", "HEAD", "OPTIONS"].contains _http_method then
      .ok { method := _http_method, url := url,
            body := RequestBody.params (payload.map (fun p => (p.1, paramValue p.2))),
            connect_timeout := s.connect_timeout, read_timeout := s.read_timeout }
    else
      .ok { method := _http_method, url := url,
            body := RequestBody.jsonBody (jsonDumps (Json.obj payload)),
            connect_timeout := s.connect_timeout, read_timeout := s.read_timeout }

/-- The possible results of `api`, per requested `_return_type`. -/
inductive RetVal where
  | none
  | response (r : Response)
  | str (s : String)
  | bytes (b : List Nat)
  | dict (j : Json)

/-- The `_return_type` argument of `api`: `requests.Response`, `str`, `bytes`,
`None`, or `dict` (the default). -/
inductive ReturnType where
  | response
  | str
  | bytes
  | none
  | dict

/-- Lines 183-198 of `api`: deserialize a (2xx) response per `_return_type`.
For `dict`, a body that fails to parse as JSON falls back to the
`{"_status": text, "_response": text}` structure of lines 195-198. -/
def returnValue (response : Response) (_return_type : ReturnType) : RetVal :=
  match _return_type with
  | .response => .response response
  | .str => .str response.text
  | .bytes => .bytes response.content
  | .none => .none
  | .dict =>
    match response.jsonOf with
    | some j => .dict j
    | Option.none =>
      .dict (Json.obj [("_status", Json.str response.text),
                       ("_response", Json.str response.text)])

/-- Lines 179-198 of `api`: classify the status, then return `None` for every
final status outside `[200, 300)` (the backwards-compatibility quirk of line
180-182), else deserialize. -/
def apiHandleResponse (response : Response) (_expected : ExpectedArg)
    (_return_type : ReturnType) : Except ApiError RetVal :=
  match raise_for_status response _expected with
  | .error e => .error e
  | .ok _ =>
    if ¬ (200 ≤ response.status_code ∧ response.status_code < 300) then .ok RetVal.none
    else .ok (returnValue response _return_type)

/-- Model of `ApiClient.api`: merge the payload, verify DNS (`_verify_hostname`,
modelled by the oracle bit `dnsResolves`), build and issue the request
(`respond` is the network), classify and deserialize the response.
`_throttle_calls` only sleeps and is elided. -/
def api (s : ApiClientState) (_http_method : String) (_endpoint_path : String)
    (_data : Option Dict) (_expected : ExpectedArg) (_return_type : ReturnType)
    (data : Dict) (dnsResolves : Bool) (respond : HttpRequest → Response) :
    Except ApiError RetVal :=
  let payload := (prepareData _data data).1
  if ¬ dnsResolves then .error (.connectionError "DNS lookup for hostname failed")
  else
    match apiBuildRequest s _http_method _endpoint_path payload with
    | .error e => .error e
    | .ok request => apiHandleResponse (respond request) _expected _return_type

/-! ## `DoceboRestClient` (`src/dbacademy/clients/docebo/__init__.py`) -/

/-- A form-encoded POST request as issued by `requests.post(url, data=payload,
headers={"Content-Type": "application/x-www-form-urlencoded"})`. -/
structure FormRequest where
  url : String
  data : List (String × String)
  contentTypeHeader : String

/-- The OAuth token request built by `DoceboRestClient.authenticate`
(lines 68-79 of `docebo/__init__.py`). -/
def doceboAuthRequest (endpoint consumer_key consumer_secret username password : String) :
    FormRequest :=
  { url := endpoint ++ "/oauth2/token",
    data := [("grant_type", "password"),
             ("client_id", consumer_key),
             ("client_secret", consumer_secret),
             ("username", username),
             ("password", password)],
    contentTypeHeader := "application/x-www-form-urlencoded" }

/-- Model of `DoceboRestClient.authenticate` (lines 64-82): POST the password-grant
form, assert a 200 status, return `response.json().get("access_token")`
(`dict.get` with one argument yields `None` for a missing key; a non-dict JSON
body makes `.get` raise `AttributeError`; a non-JSON body makes `.json()`
raise). -/
def doceboAuthenticate (endpoint consumer_key consumer_secret username password : String)
    (respond : FormRequest → Response) : Except ApiError Json :=
  let response := respond (doceboAuthRequest endpoint consumer_key consumer_secret username password)
  if response.status_code == 200 then
    match response.jsonOf with
    | some (Json.obj kvs) => .ok (pyDictGet kvs "access_token" Json.null)
    | some _ => .error (.attributeError "object has no attribute get")
    | none => .error (.valueError "response body is not JSON")
  else
    .error (.assertionError ("Expected the HTTP status code 200, found "
      ++ toString response.status_code ++ ": " ++ response.text))

/-- Model of `DoceboRestClient.__init__` (lines 29-62): authenticate first, then build
the underlying `ApiClient` with header `f"Bearer {access_token}"`.  The
`assert ... is not None` guards on the parameters are vacuous here because the
embedding types them as `String`; the four sub-clients hold no logic and are
elided. -/
def doceboRestClientInit (endpoint : String) (throttle_seconds : Int)
    (username password consumer_key consumer_secret : String)
    (respond : FormRequest → Response) : Except ApiError ApiClientState :=
  match doceboAuthenticate endpoint consumer_key consumer_secret username password respond with
  | .error e => .error e
  | .ok tok =>
    apiClientInit endpoint none none none (some ("Bearer " ++ pyStr tok)) none
      throttle_seconds false

/-! ## Spec-side formulations, for comparison with the code

The next definitions are written from the words of the specification, not from
the source, and the theorems below compare them with the source-translated
definitions above. -/

/-- Spec-side: a string ends with exactly one trailing `/`. -/
def hasExactlyOneTrailingSlash (s : String) : Bool :=
  pyEndsWith s "/" && !(pyEndsWith s "//")

/-- Spec-side reading of the exception message contract: "its message field is
the body's `message` key, falling back to the `error` key, falling back to the
raw text". -/
def specMessageOf (kvs : Dict) (text : String) : Json :=
  match pyLookup kvs "message" with
  | some v => v
  | none =>
    match pyLookup kvs "error" with
    | some v => v
    | none => Json.str text

/-- Spec-side reading of the error-code contract: "its error_code field is the
body's `error_code` key defaulting to -1". -/
def specErrorCodeOf (kvs : Dict) : Json :=
  match pyLookup kvs "error_code" with
  | some v => v
  | none => Json.num (-1)

/-! ## Concrete fixtures used by several theorems and witnesses -/

/-- A 204 No Content response. -/
def resp204 : Response :=
  { status_code := 204, text := "", jsonOf := none, content := [],
    reason := "No Content", url := "https://host/api/2.0/x",
    request_method := "GET", request_path_url := "/api/2.0/x" }

/-- A 403 response whose body is not JSON. -/
def resp403 : Response :=
  { status_code := 403, text := "forbidden!", jsonOf := none,
    content := [102], reason := "Forbidden", url := "https://host/api/2.0/x",
    request_method := "GET", request_path_url := "/api/2.0/x" }

/-- A 403 response whose body `"[]"` is valid JSON but not a JSON object. -/
def resp403arr : Response :=
  { status_code := 403, text := "[]", jsonOf := some (Json.arr []),
    content := [91, 93], reason := "Forbidden", url := "https://host/api/2.0/x",
    request_method := "GET", request_path_url := "/api/2.0/x" }

/-- A 404 response with a JSON object body. -/
def resp404json : Response :=
  { status_code := 404, text := "\x7b\"ok\": true\x7d",
    jsonOf := some (Json.obj [("ok", Json.bool true)]), content := [],
    reason := "Not Found", url := "https://host/api/2.0/x",
    request_method := "GET", request_path_url := "/api/2.0/x" }

/-- A 500 response. -/
def resp500 : Response :=
  { status_code := 500, text := "boom", jsonOf := none, content := [],
    reason := "Internal Server Error", url := "https://host/api/2.0/x",
    request_method := "GET", request_path_url := "/api/2.0/x" }

/-- A 400 response with a JSON object body carrying `message` and
`error_code`. -/
def resp400json : Response :=
  { status_code := 400, text := "\x7b\"message\": \"bad request\", \"error_code\": 1234\x7d",
    jsonOf := some (Json.obj [("message", Json.str "bad request"),
                              ("error_code", Json.num 1234)]),
    content := [], reason := "Bad Request", url := "https://host/api/2.0/x",
    request_method := "POST", request_path_url := "/api/2.0/x" }

/-- A 200 response whose JSON object body carries an access token. -/
def respToken200 : Response :=
  { status_code := 200, text := "\x7b\"access_token\": \"tok123\"\x7d",
    jsonOf := some (Json.obj [("access_token", Json.str "tok123")]), content := [],
    reason := "OK", url := "https://lms.example.com/oauth2/token",
    request_method := "POST", request_path_url := "/oauth2/token" }

/-- A 401 response to the OAuth token exchange. -/
def respAuth401 : Response :=
  { status_code := 401, text := "denied", jsonOf := none, content := [],
    reason := "Unauthorized", url := "https://lms.example.com/oauth2/token",
    request_method := "POST", request_path_url := "/oauth2/token" }

/-- A concretely constructed client state (base url `https://host/api/`). -/
def apiClientDemo : ApiClientState :=
  { url := "https://host/api/", user := none, throttle_seconds := 0,
    read_timeout := 300, connect_timeout := 5, verbose := false,
    authHeader := "Bearer tok", contentType := "text/json" }

/-- A parent client used to exercise header inheritance. -/
def parentClientDemo : ApiClientState :=
  { url := "https://parent/api/", user := none, throttle_seconds := 0,
    read_timeout := 300, connect_timeout := 5, verbose := false,
    authHeader := "Bearer parent-token", contentType := "text/json" }

/-- A network oracle that always answers with `resp404json`. -/
def const404Respond : HttpRequest → Response := fun _ => resp404json

/-- An OAuth network oracle that always answers with `respToken200`. -/
def authRespond200 : FormRequest → Response := fun _ => respToken200

/-- An OAuth network oracle that always answers with `respAuth401`. -/
def authRespond401 : FormRequest → Response := fun _ => respAuth401

/-- The client state `ApiClient("https://example.com", token="tok")`
constructs. -/
def demoConstructedState : ApiClientState :=
  { url := "https://example.com/", user := none, throttle_seconds := 0,
    read_timeout := 300, connect_timeout := 5, verbose := false,
    authHeader := "Bearer tok", contentType := "text/json" }

/-- The exception built from the 400 fixture `resp400json`. -/
def dbx400Demo : DatabricksApiException :=
  { body := Json.obj [("message", Json.str "bad request"),
                      ("error_code", Json.num 1234)],
    message := Json.str "bad request", error_code := Json.num 1234,
    method := "POST", endpoint := "/api/2.0/x", http_code := 400 }

/-! ## Helper lemmas -/

/-- Appending a slash makes `pyEndsWith · "/"` true. -/
theorem pyEndsWith_append_slash (x : String) : pyEndsWith (x ++ "/") "/" = true := by
  simp [pyEndsWith, List.isSuffixOf, String.data_append, List.reverse_append]

/-- The normalized base URL always ends with a slash. -/
theorem pyEndsWith_normalizeUrl (u : String) : pyEndsWith (normalizeUrl u) "/" = true := by
  unfold normalizeUrl
  by_cases h : pyEndsWith u "/" = true
  · simp [h]
  · simp only [Bool.not_eq_true] at h
    simp [h, pyEndsWith_append_slash]

/-- Lookup after a single Python dict assignment. -/
theorem pyLookup_pyDictSet (d : Dict) (k k' : String) (v : Json) :
    pyLookup (pyDictSet d k v) k' = if k' = k then some v else pyLookup d k' := by
  induction d with
  | nil =>
    by_cases h : k' = k
    · subst h; simp [pyDictSet, pyLookup]
    · have h' : ¬ (k = k') := fun hh => h hh.symm
      simp [pyDictSet, pyLookup, h, h']
  | cons p rest ih =>
    obtain ⟨k1, v1⟩ := p
    by_cases h1 : k1 = k
    · subst h1
      by_cases h2 : k' = k1
      · subst h2; simp [pyDictSet, pyLookup]
      · have h2' : ¬ (k1 = k') := fun hh => h2 hh.symm
        simp [pyDictSet, pyLookup, h2, h2']
    · by_cases h2 : k1 = k'
      · subst h2
        have hne : ¬ (k1 = k) := h1
        have hne' : ¬ (k1 = k) := h1
        simp [pyDictSet, pyLookup, hne, hne']
      · simp [pyDictSet, pyLookup, h1, h2, ih]

/-- Updating with keys not containing `k` leaves the lookup of `k` unchanged. -/
theorem pyLookup_pyDictUpdate_not_mem (kw : Dict) (d : Dict) (k : String)
    (h : k ∉ kw.map Prod.fst) :
    pyLookup (pyDictUpdate d kw) k = pyLookup d k := by
  induction kw generalizing d with
  | nil => rfl
  | cons p rest ih =>
    obtain ⟨k0, v0⟩ := p
    simp only [List.map_cons, List.mem_cons] at h
    push_neg at h
    rw [pyDictUpdate, ih (pyDictSet d k0 v0) h.2, pyLookup_pyDictSet]
    simp [h.1]

/-- Updating with a duplicate-free kwargs dict makes each of its pairs win. -/
theorem pyLookup_pyDictUpdate_mem (kw : Dict) (d : Dict) (k : String) (v : Json)
    (hnd : (kw.map Prod.fst).Nodup) (h : (k, v) ∈ kw) :
    pyLookup (pyDictUpdate d kw) k = some v := by
  induction kw generalizing d with
  | nil => cases h
  | cons p rest ih =>
    obtain ⟨k0, v0⟩ := p
    simp only [List.map_cons, List.nodup_cons] at hnd
    rcases List.mem_cons.mp h with hh | hh
    · injection hh with hk hv
      subst hk; subst hv
      rw [pyDictUpdate, pyLookup_pyDictUpdate_not_mem rest (pyDictSet d k v) k hnd.1,
        pyLookup_pyDictSet]
      simp
    · rw [pyDictUpdate]
      exact ih (pyDictSet d k0 v0) hnd.2 hh

/-! ## Claim C1 -/

/-- C1: `_raise_for_status` accepts 2xx statuses and statuses in `expected`
(a 404 with `expected=404` returns without raising); a 403 not in `expected`
raises `DatabricksApiException` with `http_code = 403` and a populated
message; a 500 raises the generic HTTP error.  However, the claim's universal
"a raised exception is a `DatabricksApiException` exactly when the status is
in [400,500)" fails on the code: a 4xx response whose body is valid JSON but
not a JSON object (here `"[]"` at status 403) makes `self.body.get(...)` in
`DatabricksApiException.__init__` raise an uncaught `AttributeError`, so the
exception that escapes is not a `DatabricksApiException`, contradicting the
method's own docstring ("Raises DatabricksApiException for 4xx Client
Error"). -/
theorem c1_raise_for_status_classification :
    raise_for_status resp204 ExpectedArg.none = Except.ok ()
  ∧ raise_for_status resp404json (ExpectedArg.int 404) = Except.ok ()
  ∧ raise_for_status resp403 ExpectedArg.none =
      Except.error (ApiError.databricksApiError
        { body := Json.str "forbidden!", message := Json.str "forbidden!",
          error_code := Json.num (-1), method := "GET", endpoint := "/api/2.0/x",
          http_code := 403 })
  ∧ raise_for_status resp500 ExpectedArg.none =
      Except.error (ApiError.httpError (httpErrorMsg resp500) resp500)
  ∧ raise_for_status resp403arr ExpectedArg.none =
      Except.error (ApiError.attributeError "object has no attribute get") :=
  ⟨rfl, rfl, rfl, rfl, rfl⟩

/-! ## Claim C2 -/

/-- C2 counterexample: a 404 response explicitly accepted via `expected=404`
with `_return_type=dict` makes `api` return `None`, not the parsed JSON body
`{"ok": true}` the claim promises — the `if not (200 <= status < 300): return
None` on lines 181-182 runs regardless of `expected`. -/
theorem c2_counterexample :
    api apiClientDemo "GET" "2.0/x" none (ExpectedArg.int 404) ReturnType.dict [] true
      const404Respond = Except.ok RetVal.none
  ∧ (Except.ok RetVal.none : Except ApiError RetVal)
      ≠ Except.ok (RetVal.dict (Json.obj [("ok", Json.bool true)])) := by
  exact ⟨rfl, by simp⟩

/-- C2 amended: whenever `_raise_for_status` accepts the response (here:
because the status was in `expected`) but the final status is outside
[200,300), `api` returns `None` for every requested return type; no
deserialization applies. -/
theorem c2_amended_none_on_expected_non2xx (response : Response)
    (expected : ExpectedArg) (rt : ReturnType)
    (hok : raise_for_status response expected = Except.ok ())
    (hnot2xx : ¬ (200 ≤ response.status_code ∧ response.status_code < 300)) :
    apiHandleResponse response expected rt = Except.ok RetVal.none := by
  simp [apiHandleResponse, hok, hnot2xx]

/-- C2 witness: the amended statement at the 404-with-`expected=404` fixture. -/
theorem c2_amended_witness :
    apiHandleResponse resp404json (ExpectedArg.int 404) ReturnType.dict
      = Except.ok RetVal.none :=
  c2_amended_none_on_expected_non2xx resp404json (ExpectedArg.int 404) ReturnType.dict
    rfl (by decide)

/-! ## Claim C3 -/

/-- C3: the authorization header follows the construction precedence — an
explicit (truthy) `authorization_header` passes through unchanged; otherwise a
token gives `Bearer <token>`; otherwise user and password give
`Basic <standard-base64(user:password)>`; otherwise a parent client's
Authorization header is inherited. -/
theorem c3_auth_header_selection (url : String) (token user password hdr : Option String)
    (client : Option ApiClientState) (ts : Int) (v : Bool) :
    (∀ h, hdr = some h → h ≠ "" →
       (apiClientInit url token user password hdr client ts v).map ApiClientState.authHeader
         = Except.ok h)
  ∧ (optTruthy hdr = false → ∀ t, token = some t →
       (apiClientInit url token user password hdr client ts v).map ApiClientState.authHeader
         = Except.ok ("Bearer " ++ t))
  ∧ (optTruthy hdr = false → token = none → ∀ u p, user = some u → password = some p →
       (apiClientInit url token user password hdr client ts v).map ApiClientState.authHeader
         = Except.ok ("Basic " ++ b64EncodeStr (u ++ ":" ++ p)))
  ∧ (optTruthy hdr = false → token = none → user = none ∨ password = none →
       ∀ c, client = some c →
       (apiClientInit url token user password hdr client ts v).map ApiClientState.authHeader
         = Except.ok c.authHeader) := by
  refine ⟨?_, ?_, ?_, ?_⟩
  · intro h hh hne; subst hh
    simp [apiClientInit, selectAuthHeader, optTruthy, hne, Except.map]
  · intro hf t ht; subst ht
    simp [apiClientInit, selectAuthHeader, hf, Except.map]
  · intro hf ht u p hu hp; subst ht; subst hu; subst hp
    simp [apiClientInit, selectAuthHeader, hf, Except.map]
  · intro hf ht hup c hc; subst ht; subst hc
    rcases hup with h | h
    · subst h
      cases password <;> simp [apiClientInit, selectAuthHeader, hf, Except.map]
    · subst h
      cases user <;> simp [apiClientInit, selectAuthHeader, hf, Except.map]

/-- C3 witness: the four construction shapes at concrete credentials
(`base64("user:password") = "dXNlcjpwYXNzd29yZA=="` is checked by
evaluation). -/
theorem c3_witness :
    (apiClientInit "https://a/" none none none (some "X-Auth 1") none 0 false).map
      ApiClientState.authHeader = Except.ok "X-Auth 1"
  ∧ (apiClientInit "https://a/" (some "tok") none none none none 0 false).map
      ApiClientState.authHeader = Except.ok ("Bearer " ++ "tok")
  ∧ (apiClientInit "https://a/" none (some "user") (some "password") none none 0 false).map
      ApiClientState.authHeader = Except.ok ("Basic " ++ b64EncodeStr ("user" ++ ":" ++ "password"))
  ∧ (apiClientInit "https://a/" none none none none (some parentClientDemo) 0 false).map
      ApiClientState.authHeader = Except.ok parentClientDemo.authHeader
  ∧ "Basic " ++ b64EncodeStr ("user" ++ ":" ++ "password") = "Basic dXNlcjpwYXNzd29yZA==" :=
  ⟨(c3_auth_header_selection "https://a/" none none none (some "X-Auth 1") none 0 false).1
      "X-Auth 1" rfl (by decide),
   (c3_auth_header_selection "https://a/" (some "tok") none none none none 0 false).2.1
      rfl "tok" rfl,
   (c3_auth_header_selection "https://a/" none (some "user") (some "password") none none 0 false).2.2.1
      rfl rfl "user" "password" rfl rfl,
   (c3_auth_header_selection "https://a/" none none none none (some parentClientDemo) 0 false).2.2.2
      rfl rfl (Or.inl rfl) parentClientDemo rfl,
   rfl⟩

/-! ## Claim C4 -/

/-- C4 counterexample: a url that already ends with two `/` is stored
unchanged, so the stored url does not end with exactly one trailing `/` —
lines 96-97 only append a missing slash, they never collapse repeated ones. -/
theorem c4_counterexample :
    (apiClientInit "https://example.com//" (some "tok") none none none none 0 false).map
      ApiClientState.url = Except.ok "https://example.com//"
  ∧ hasExactlyOneTrailingSlash "https://example.com//" = false :=
  ⟨rfl, rfl⟩

/-- C4 amended: the stored url always ends with at least one `/`; when no
parent client is involved, the input url is stored unchanged if it already
ends with `/` (extra trailing separators are preserved), else with exactly one
`/` appended. -/
theorem c4_amended_trailing_slash (url : String) (token user password hdr : Option String)
    (client : Option ApiClientState) (ts : Int) (v : Bool) (s : ApiClientState)
    (h : apiClientInit url token user password hdr client ts v = Except.ok s) :
    pyEndsWith s.url "/" = true
  ∧ (client = none → s.url = if pyEndsWith url "/" then url else url ++ "/") := by
  have hurl : s.url = normalizeUrl (mergeClientUrl url client) := by
    unfold apiClientInit at h
    cases hsel : selectAuthHeader token user password hdr client with
    | error e => rw [hsel] at h; cases h
    | ok hdr' => rw [hsel] at h; injection h with h'; subst h'; rfl
  constructor
  · rw [hurl]; exact pyEndsWith_normalizeUrl _
  · intro hc; subst hc; rw [hurl]; rfl

/-- C4 witness: the amended statement at `ApiClient("https://example.com",
token="tok")`, whose input url lacks the trailing slash. -/
theorem c4_amended_witness :
    pyEndsWith demoConstructedState.url "/" = true
  ∧ ((none : Option ApiClientState) = none →
      demoConstructedState.url =
        if pyEndsWith "https://example.com" "/" then "https://example.com"
        else "https://example.com" ++ "/") :=
  c4_amended_trailing_slash "https://example.com" (some "tok") none none none none 0 false
    demoConstructedState rfl

/-! ## Claim C5 -/

/-- C5 counterexample: for a path that starts with the base URL, the request
URL is NOT always "the base URL followed by p with that prefix stripped":
line 171 additionally strips leading `/` from the remainder, so
`p = base ++ "//foo"` resolves to `base ++ "foo"`, not back to `p`. -/
theorem c5_counterexample :
    pyStartsWith "https://host/api//foo" "https://host/api/" = true
  ∧ resolveEndpoint "https://host/api/" "https://host/api//foo"
      = Except.ok "https://host/api/foo"
  ∧ "https://host/api/" ++ pyDrop "https://host/api//foo" (pyLen "https://host/api/")
      = "https://host/api//foo"
  ∧ ("https://host/api/foo" : String) ≠ "https://host/api//foo" :=
  ⟨rfl, rfl, rfl, by decide⟩

/-- C5 amended: if the path starts with the base URL, the request URL is the
base URL followed by the remainder of the path stripped of leading `/`
characters; otherwise a path starting with `http` raises `ValueError` before
any request is issued (the result of `api` is then independent of the network
oracle); otherwise the request URL is the base URL concatenated with the path
stripped of leading `/` characters.  The resolved URL is the one placed in the
issued request. -/
theorem c5_amended_url_resolution (s : ApiClientState) (m p : String) (_data : Option Dict)
    (exp : ExpectedArg) (rt : ReturnType) (kw : Dict) :
    (pyStartsWith p s.url = true →
       resolveEndpoint s.url p
         = Except.ok (s.url ++ pyLStrip (pyDrop p (pyLen s.url)) '/'))
  ∧ (pyStartsWith p s.url = false → pyStartsWith p "http" = true →
       resolveEndpoint s.url p = Except.error (ApiError.valueError
           ("endpoint_path must be relative url, not " ++ reprStr p ++ "."))
       ∧ ∀ respond respond' : HttpRequest → Response,
           api s m p _data exp rt kw true respond = api s m p _data exp rt kw true respond')
  ∧ (pyStartsWith p s.url = false → pyStartsWith p "http" = false →
       resolveEndpoint s.url p = Except.ok (s.url ++ pyLStrip p '/'))
  ∧ (∀ u payload, resolveEndpoint s.url p = Except.ok u →
       (apiBuildRequest s m p payload).map HttpRequest.url = Except.ok u) := by
  refine ⟨?_, ?_, ?_, ?_⟩
  · intro h; simp [resolveEndpoint, h]
  · intro h1 h2
    refine ⟨by simp [resolveEndpoint, h1, h2], ?_⟩
    intro respond respond'
    simp [api, apiBuildRequest, resolveEndpoint, h1, h2]
  · intro h1 h2; simp [resolveEndpoint, h1, h2]
  · intro u payload hu
    by_cases hc : m = "GET" ∨ m = "HEAD" ∨ m = "OPTIONS" <;>
      simp [apiBuildRequest, hu, hc, Except.map]

/-- C5 witness: the three branches at concrete inputs against the base URL
`https://host/api/`, and the resolved URL reaching the issued request. -/
theorem c5_amended_witness :
    resolveEndpoint apiClientDemo.url "https://host/api/2.0/jobs"
      = Except.ok (apiClientDemo.url
          ++ pyLStrip (pyDrop "https://host/api/2.0/jobs" (pyLen apiClientDemo.url)) '/')
  ∧ resolveEndpoint apiClientDemo.url "http://elsewhere/x"
      = Except.error (ApiError.valueError
          ("endpoint_path must be relative url, not " ++ reprStr "http://elsewhere/x" ++ "."))
  ∧ resolveEndpoint apiClientDemo.url "/2.0/jobs"
      = Except.ok (apiClientDemo.url ++ pyLStrip "/2.0/jobs" '/')
  ∧ (apiBuildRequest apiClientDemo "GET" "2.0/jobs" []).map HttpRequest.url
      = Except.ok "https://host/api/2.0/jobs" :=
  ⟨(c5_amended_url_resolution apiClientDemo "GET" "https://host/api/2.0/jobs" none
      ExpectedArg.none ReturnType.dict []).1 rfl,
   ((c5_amended_url_resolution apiClientDemo "GET" "http://elsewhere/x" none
      ExpectedArg.none ReturnType.dict []).2.1 rfl rfl).1,
   (c5_amended_url_resolution apiClientDemo "GET" "/2.0/jobs" none
      ExpectedArg.none ReturnType.dict []).2.2.1 rfl rfl,
   (c5_amended_url_resolution apiClientDemo "GET" "2.0/jobs" none
      ExpectedArg.none ReturnType.dict []).2.2.2 "https://host/api/2.0/jobs" [] rfl⟩

/-! ## Claim C6 -/

/-- C6: GET/HEAD/OPTIONS requests carry the payload as query parameters with
every boolean value serialized to the lowercase string `"true"`/`"false"` and
every non-boolean value passed through; every other method carries the payload
as a JSON-serialized request body. -/
theorem c6_payload_encoding (s : ApiClientState) (m p : String) (payload : Dict) (u : String)
    (hu : resolveEndpoint s.url p = Except.ok u) :
    (["GET", "HEAD", "OPTIONS"].contains m = true →
       apiBuildRequest s m p payload = Except.ok
         { method := m, url := u,
           body := RequestBody.params (payload.map (fun q => (q.1, paramValue q.2))),
           connect_timeout := s.connect_timeout, read_timeout := s.read_timeout })
  ∧ (["GET", "HEAD", "OPTIONS"].contains m = false →
       apiBuildRequest s m p payload = Except.ok
         { method := m, url := u,
           body := RequestBody.jsonBody (jsonDumps (Json.obj payload)),
           connect_timeout := s.connect_timeout, read_timeout := s.read_timeout })
  ∧ (∀ b : Bool, paramValue (Json.bool b) = Json.str (if b then "true" else "false"))
  ∧ (∀ v : Json, (∀ b : Bool, v ≠ Json.bool b) → paramValue v = v) := by
  refine ⟨?_, ?_, ?_, ?_⟩
  · intro hm
    have hm' : m = "GET" ∨ m = "HEAD" ∨ m = "OPTIONS" := by simpa using hm
    simp [apiBuildRequest, hu, hm']
  · intro hm
    have hm' : ¬ m = "GET" ∧ ¬ m = "HEAD" ∧ ¬ m = "OPTIONS" := by simpa using hm
    simp [apiBuildRequest, hu, hm'.1, hm'.2.1, hm'.2.2]
  · intro b; rfl
  · intro v hv
    cases v <;> first | rfl | exact absurd rfl (hv _)

/-- C6 witness: a GET with a boolean payload value yields lowercase query
parameters; a POST with the same payload yields a JSON body. -/
theorem c6_witness :
    apiBuildRequest apiClientDemo "GET" "2.0/x" [("flag", Json.bool true)] = Except.ok
      { method := "GET", url := "https://host/api/2.0/x",
        body := RequestBody.params ([("flag", Json.bool true)].map
          (fun q => (q.1, paramValue q.2))),
        connect_timeout := apiClientDemo.connect_timeout,
        read_timeout := apiClientDemo.read_timeout }
  ∧ apiBuildRequest apiClientDemo "POST" "2.0/x" [("flag", Json.bool true)] = Except.ok
      { method := "POST", url := "https://host/api/2.0/x",
        body := RequestBody.jsonBody (jsonDumps (Json.obj [("flag", Json.bool true)])),
        connect_timeout := apiClientDemo.connect_timeout,
        read_timeout := apiClientDemo.read_timeout }
  ∧ paramValue (Json.bool true) = Json.str "true"
  ∧ jsonDumps (Json.obj [("flag", Json.bool true)]) = "\x7b\"flag\": true\x7d" :=
  ⟨(c6_payload_encoding apiClientDemo "GET" "2.0/x" [("flag", Json.bool true)]
      "https://host/api/2.0/x" rfl).1 rfl,
   (c6_payload_encoding apiClientDemo "POST" "2.0/x" [("flag", Json.bool true)]
      "https://host/api/2.0/x" rfl).2.1 rfl,
   rfl, rfl⟩

/-! ## Claim C7 -/

/-- C7: constructing an `ApiClient` with no token, no full user+password pair,
no authorization header and no parent client raises `ValueError` at
construction; no client state is produced. -/
theorem c7_missing_credentials (url : String) (user password : Option String)
    (ts : Int) (v : Bool) (h : user = none ∨ password = none) :
    apiClientInit url none user password none none ts v
      = Except.error (ApiError.valueError
          "Must specify one of token, password, or authorization_header") := by
  rcases h with h | h
  · subst h; cases password <;> rfl
  · subst h; cases user <;> rfl

/-- C7 witness: the credential-free construction at a concrete url. -/
theorem c7_witness :
    apiClientInit "https://x.example.com" none none none none none 0 false
      = Except.error (ApiError.valueError
          "Must specify one of token, password, or authorization_header") :=
  c7_missing_credentials "https://x.example.com" none none 0 false (Or.inl rfl)

/-! ## Claim C8 -/

/-- The code's nested `dict.get` fallbacks compute the spec-side message. -/
theorem pyDictGet_eq_specMessageOf (kvs : Dict) (text : String) :
    pyDictGet kvs "message" (pyDictGet kvs "error" (Json.str text))
      = specMessageOf kvs text := by
  unfold pyDictGet specMessageOf
  cases pyLookup kvs "message" <;> cases pyLookup kvs "error" <;> rfl

/-- The code's `dict.get("error_code", -1)` computes the spec-side error code. -/
theorem pyDictGet_eq_specErrorCodeOf (kvs : Dict) :
    pyDictGet kvs "error_code" (Json.num (-1)) = specErrorCodeOf kvs := by
  unfold pyDictGet specErrorCodeOf
  cases pyLookup kvs "error_code" <;> rfl

/-- C8: every `DatabricksApiException` built from an HTTP error carries the
request's method, the endpoint path and the response status code; when the
body parses as a JSON object the message is the body's `message` key falling
back to `error` falling back to the raw text and the error code is the body's
`error_code` key defaulting to -1; when the body is not JSON the message is
the raw text and the error code is -1. -/
theorem c8_exception_fields (response : Response) (d : DatabricksApiException)
    (h : mkDatabricksApiException response = Except.ok d) :
    d.method = response.request_method
  ∧ d.endpoint = response.request_path_url
  ∧ d.http_code = response.status_code
  ∧ (∀ kvs, response.jsonOf = some (Json.obj kvs) →
       d.message = specMessageOf kvs response.text ∧ d.error_code = specErrorCodeOf kvs)
  ∧ (response.jsonOf = none →
       d.message = Json.str response.text ∧ d.error_code = Json.num (-1)) := by
  cases hj : response.jsonOf with
  | none =>
    simp only [mkDatabricksApiException, hj] at h
    injection h with h'
    subst h'
    refine ⟨rfl, rfl, rfl, ?_, fun _ => ⟨rfl, rfl⟩⟩
    intro kvs hk
    exact Option.noConfusion hk
  | some j =>
    cases j with
    | obj kvs =>
      simp only [mkDatabricksApiException, hj] at h
      injection h with h'
      subst h'
      refine ⟨rfl, rfl, rfl, ?_, ?_⟩
      · intro kvs' hk
        injection hk with hk'
        injection hk' with hk''
        subst hk''
        exact ⟨pyDictGet_eq_specMessageOf kvs response.text,
               pyDictGet_eq_specErrorCodeOf kvs⟩
      · intro hn; exact Option.noConfusion hn
    | null => simp only [mkDatabricksApiException, hj] at h; exact Except.noConfusion h
    | bool b => simp only [mkDatabricksApiException, hj] at h; exact Except.noConfusion h
    | num n => simp only [mkDatabricksApiException, hj] at h; exact Except.noConfusion h
    | str s => simp only [mkDatabricksApiException, hj] at h; exact Except.noConfusion h
    | arr xs => simp only [mkDatabricksApiException, hj] at h; exact Except.noConfusion h

/-- C8 witness: the exception built from the 400 fixture, whose JSON object
body carries `message` and `error_code`. -/
theorem c8_witness :
    dbx400Demo.method = resp400json.request_method
  ∧ dbx400Demo.endpoint = resp400json.request_path_url
  ∧ dbx400Demo.http_code = resp400json.status_code
  ∧ (∀ kvs, resp400json.jsonOf = some (Json.obj kvs) →
       dbx400Demo.message = specMessageOf kvs resp400json.text
       ∧ dbx400Demo.error_code = specErrorCodeOf kvs)
  ∧ (resp400json.jsonOf = none →
       dbx400Demo.message = Json.str resp400json.text
       ∧ dbx400Demo.error_code = Json.num (-1)) :=
  c8_exception_fields resp400json dbx400Demo rfl

/-! ## Claim C9 -/

/-- C9: `DoceboRestClient.authenticate` POSTs the password-grant form payload
(`grant_type=password`, `client_id`, `client_secret`, `username`, `password`)
to `{endpoint}/oauth2/token`; every non-200 response raises an assertion error
and the surrounding client construction fails with that same error; a 200
response with a JSON object body yields the body's `access_token` field. -/
theorem c9_docebo_oauth (endpoint ck cs un pw : String) (ts : Int)
    (respond : FormRequest → Response) :
    (doceboAuthRequest endpoint ck cs un pw).url = endpoint ++ "/oauth2/token"
  ∧ (doceboAuthRequest endpoint ck cs un pw).data
      = [("grant_type", "password"), ("client_id", ck), ("client_secret", cs),
         ("username", un), ("password", pw)]
  ∧ ((respond (doceboAuthRequest endpoint ck cs un pw)).status_code ≠ 200 →
      doceboAuthenticate endpoint ck cs un pw respond
        = Except.error (ApiError.assertionError
            ("Expected the HTTP status code 200, found "
              ++ toString (respond (doceboAuthRequest endpoint ck cs un pw)).status_code
              ++ ": " ++ (respond (doceboAuthRequest endpoint ck cs un pw)).text))
      ∧ doceboRestClientInit endpoint ts un pw ck cs respond
        = Except.error (ApiError.assertionError
            ("Expected the HTTP status code 200, found "
              ++ toString (respond (doceboAuthRequest endpoint ck cs un pw)).status_code
              ++ ": " ++ (respond (doceboAuthRequest endpoint ck cs un pw)).text)))
  ∧ (∀ kvs, (respond (doceboAuthRequest endpoint ck cs un pw)).status_code = 200 →
      (respond (doceboAuthRequest endpoint ck cs un pw)).jsonOf = some (Json.obj kvs) →
      doceboAuthenticate endpoint ck cs un pw respond
        = Except.ok (pyDictGet kvs "access_token" Json.null)) := by
  refine ⟨rfl, rfl, ?_, ?_⟩
  · intro hne
    have hb : ((respond (doceboAuthRequest endpoint ck cs un pw)).status_code == 200)
        = false := by simp [hne]
    exact ⟨by simp [doceboAuthenticate, hb],
           by simp [doceboRestClientInit, doceboAuthenticate, hb]⟩
  · intro kvs h200 hj
    simp [doceboAuthenticate, h200, hj]

/-- C9 witness: a 401 token response raises the assertion error (also through
the client constructor) and a 200 token response yields the access token. -/
theorem c9_witness :
    doceboAuthenticate "https://lms.example.com" "ck" "cs" "u" "pw" authRespond401
      = Except.error (ApiError.assertionError
          "Expected the HTTP status code 200, found 401: denied")
  ∧ doceboRestClientInit "https://lms.example.com" 0 "u" "pw" "ck" "cs" authRespond401
      = Except.error (ApiError.assertionError
          "Expected the HTTP status code 200, found 401: denied")
  ∧ doceboAuthenticate "https://lms.example.com" "ck" "cs" "u" "pw" authRespond200
      = Except.ok (Json.str "tok123") :=
  ⟨((c9_docebo_oauth "https://lms.example.com" "ck" "cs" "u" "pw" 0 authRespond401).2.2.1
      (by decide)).1,
   ((c9_docebo_oauth "https://lms.example.com" "ck" "cs" "u" "pw" 0 authRespond401).2.2.1
      (by decide)).2,
   (c9_docebo_oauth "https://lms.example.com" "ck" "cs" "u" "pw" 0 authRespond200).2.2.2
      [("access_token", Json.str "tok123")] rfl rfl⟩

/-! ## Claim C10 -/

/-- C10: the payload-merge prologue of `api` never mutates the caller's
`_data` dict; with kwargs present they are merged into a fresh copy with
kwarg values winning on key collisions, and with no kwargs `_data` is used
unchanged. -/
theorem c10_data_not_mutated (d kw : Dict) (hnd : (kw.map Prod.fst).Nodup) :
    (prepareData (some d) kw).2 = some d
  ∧ (kw = [] → (prepareData (some d) kw).1 = d)
  ∧ (∀ k v, (k, v) ∈ kw → pyLookup (prepareData (some d) kw).1 k = some v)
  ∧ (∀ k, k ∉ kw.map Prod.fst → pyLookup (prepareData (some d) kw).1 k = pyLookup d k) := by
  cases kw with
  | nil =>
    refine ⟨rfl, fun _ => rfl, ?_, fun k _ => rfl⟩
    intro k v hv; cases hv
  | cons p rest =>
    refine ⟨rfl, fun h => absurd h (List.cons_ne_nil p rest), ?_, ?_⟩
    · intro k v hv
      exact pyLookup_pyDictUpdate_mem (p :: rest) d k v hnd hv
    · intro k hk
      exact pyLookup_pyDictUpdate_not_mem (p :: rest) d k hk

/-- C10 witness: a concrete `_data` dict and kwargs with one colliding key —
the caller's dict is returned intact, the colliding key takes the kwarg value
and an untouched key keeps its `_data` value. -/
theorem c10_witness :
    (prepareData (some [("a", Json.num 1), ("b", Json.num 2)])
        [("b", Json.num 3), ("c", Json.num 4)]).2
      = some [("a", Json.num 1), ("b", Json.num 2)]
  ∧ pyLookup (prepareData (some [("a", Json.num 1), ("b", Json.num 2)])
        [("b", Json.num 3), ("c", Json.num 4)]).1 "b" = some (Json.num 3)
  ∧ pyLookup (prepareData (some [("a", Json.num 1), ("b", Json.num 2)])
        [("b", Json.num 3), ("c", Json.num 4)]).1 "a"
      = pyLookup [("a", Json.num 1), ("b", Json.num 2)] "a" :=
  ⟨(c10_data_not_mutated [("a", Json.num 1), ("b", Json.num 2)]
      [("b", Json.num 3), ("c", Json.num 4)] (by decide)).1,
   (c10_data_not_mutated [("a", Json.num 1), ("b", Json.num 2)]
      [("b", Json.num 3), ("c", Json.num 4)] (by decide)).2.2.1 "b" (Json.num 3)
      (List.mem_cons_self _ _),
   (c10_data_not_mutated [("a", Json.num 1), ("b", Json.num 2)]
      [("b", Json.num 3), ("c", Json.num 4)] (by decide)).2.2.2 "a" (by decide)⟩

end DbAcademy
